import Mathlib

/-!
Verification development for the avatar-system repository.

We shallowly embed the image derivative cache of `server.js` (and its
variant with `clearCacheByPrefix` and the admin images endpoints):

* the cache is the in-memory `imageCache = new Map()` — modelled as an
  association list from string keys to byte buffers, with `Map.get`,
  `Map.set`, `Map.delete` and iteration order preserved;
* the avatar GET handler `GET /api/users/:userId/avatar` — modelled as a
  pure function from the upstream state (PocketBase users and their
  stored avatar files), the cache, and the request parameters to a
  response (headers + body + new cache) or a structured error;
* the cache invalidation performed by the upload handler
  (`imageCache.delete(userId)`) and by the delete handler
  (`key.startsWith(userId)` prefix deletion / `clearCacheByPrefix`);
* the key encodings `` `${userId}-${size}` `` and
  `` `image-${imageId}-${size}` ``.

Image bytes are abstract: a buffer is either a decodable image with a
width, a height and abstract content, or undecodable junk (on which
sharp throws).  `sharp(b).resize(n, n, {fit, withoutEnlargement: true})
.webp(...)` is abstracted to a dimension change that never enlarges:
an at-least-n×n source becomes exactly n×n, smaller dimensions are kept.
The claims under study depend only on whether the resize step runs and
on its target dimension, not on pixel-exact resampling.
-/

namespace AvatarSystem

/-- An abstract byte buffer: either bytes that decode to an image of a
given width and height (with abstract content), or undecodable junk. -/
inductive ImgBytes
  | image (width height : Nat) (content : List Nat)
  | junk (raw : List Nat)
  deriving DecidableEq, Repr

/-- Byte length of a buffer (used for the `Content-Length` header:
`cached.length` / `processedImage.length` in the source). -/
def blen : ImgBytes → Nat
  | .image _ _ content => content.length
  | .junk raw => raw.length

/-- Abstraction of
`sharp(b).resize(n, n, { fit: ..., withoutEnlargement: true }).webp({ quality: 80 }).toBuffer()`:
a decodable w×h source yields a derivative clamped to n in each
dimension (exactly n×n when the source is at least n×n; never
enlarged), carrying the content through; sharp throws on undecodable
input, modelled as `none`. -/
def sharpSquareResize (n : Nat) : ImgBytes → Option ImgBytes
  | .image w h content => some (.image (min n w) (min n h) content)
  | .junk _ => none

/-- A JavaScript value read from the `sizes` object: a number, `null`
(the value of `sizes.original`), or `undefined` (an absent property). -/
inductive SizeVal
  | num (n : Nat)
  | jsNull
  | jsUndefined
  deriving DecidableEq, Repr

/-- `sizes[size]` for `sizes = { small: 100, medium: 300, large: 600, original: null }`. -/
def sizesLookup (size : String) : SizeVal :=
  if size = "small" then .num 100
  else if size = "medium" then .num 300
  else if size = "large" then .num 600
  else if size = "original" then .jsNull
  else .jsUndefined

/-- JavaScript truthiness of a `sizes` value: `null`, `undefined` and
`0` are falsy, every other number is truthy. -/
def sizeTruthy : SizeVal → Bool
  | .num n => n != 0
  | .jsNull => false
  | .jsUndefined => false

/-- `const targetSize = sizes[size] || sizes.medium;` — the JS `||`
returns the left operand when truthy, else the right operand. -/
def targetSize (size : String) : SizeVal :=
  if sizeTruthy (sizesLookup size) then sizesLookup size else sizesLookup "medium"

/-- `if (targetSize) { processedImage = await sharp(...).resize(targetSize, targetSize, ...).webp(...) }`:
the resize+re-encode runs only when `targetSize` is truthy; a falsy
value leaves the fetched bytes untouched.  `none` models the transform
throwing (undecodable input). -/
def applyTransform (t : SizeVal) (b : ImgBytes) : Option ImgBytes :=
  match t with
  | .num n => if n = 0 then some b else sharpSquareResize n b
  | .jsNull => some b
  | .jsUndefined => some b

/-- The in-memory `imageCache = new Map()`, as an insertion-ordered
association list from string keys to byte buffers. -/
abbrev Cache := List (String × ImgBytes)

/-- `imageCache.get(k)` / `imageCache.has(k)` (a `Map` holds at most
one value per key; lookup returns the first, and only, match). -/
def cacheLookup (c : Cache) (k : String) : Option ImgBytes :=
  match c with
  | [] => none
  | (k', v) :: rest => if k' = k then some v else cacheLookup rest k

/-- `imageCache.set(k, v)`: overwrite in place when the key is present,
else append. -/
def cacheSet (c : Cache) (k : String) (v : ImgBytes) : Cache :=
  match c with
  | [] => [(k, v)]
  | (k', v') :: rest => if k' = k then (k, v) :: rest else (k', v') :: cacheSet rest k v

/-- `imageCache.delete(k)`: remove the entry with exactly this key. -/
def cacheDelete (c : Cache) (k : String) : Cache :=
  match c with
  | [] => []
  | (k', v) :: rest => if k' = k then cacheDelete rest k else (k', v) :: cacheDelete rest k

/-- JavaScript `key.startsWith(pfx)`: `pfx` is a string prefix of `key`. -/
def jsStartsWith (key pfx : String) : Bool :=
  pfx.data.isPrefixOf key.data

/-- `clearCacheByPrefix` / the inline
`imageCache.forEach((value, key) => { if (key.startsWith(userId)) imageCache.delete(key) })`:
remove every entry whose key starts with the given string. -/
def clearCacheByPrefix (pfx : String) (c : Cache) : Cache :=
  match c with
  | [] => []
  | (k, v) :: rest =>
    if jsStartsWith k pfx then clearCacheByPrefix pfx rest
    else (k, v) :: clearCacheByPrefix pfx rest

/-- The avatar derivative key: `` const cacheKey = `${userId}-${size}`; ``. -/
def avatarCacheKey (userId size : String) : String :=
  userId ++ "-" ++ size

/-- The admin-image derivative key: `` const cacheKey = `image-${imageId}-${size}`; ``. -/
def imageCacheKey (imageId size : String) : String :=
  "image-" ++ imageId ++ "-" ++ size

/-- The upstream file fetch outcome for a stored avatar:
`fetch(imageUrl)` returns the original bytes with `response.ok`, or a
non-ok / failed response (the handler then throws). -/
inductive FetchOutcome
  | fetched (b : ImgBytes)
  | netErr
  deriving DecidableEq, Repr

/-- A PocketBase user record as the handler sees it: `user.avatar` is
empty (`none`) or names a stored file whose fetch has the given outcome. -/
structure UserRec where
  avatar : Option FetchOutcome
  deriving DecidableEq, Repr

/-- The upstream users collection, keyed by user id. -/
abbrev Users := List (String × UserRec)

/-- `pb.collection('users').getOne(userId)`: `none` models the 404 the
SDK throws for an unknown (or empty) id. -/
def usersLookup (users : Users) (userId : String) : Option UserRec :=
  match users with
  | [] => none
  | (k, u) :: rest => if k = userId then some u else usersLookup rest userId

/-- The error taxonomy of §7 as surfaced by the HTTP boundary:
404 for a missing user or avatar, 500-class for a failed upstream file
fetch or a failed transform, 400-class for rejected input (no branch of
the avatar GET handler produces `validationError`; other handlers use
400 responses). -/
inductive ErrKind
  | notFound
  | upstreamFetchError
  | transformError
  | validationError
  deriving DecidableEq, Repr

/-- The response headers the handler sets (`res.set({...})`). -/
structure Headers where
  contentType : String
  contentLength : Nat
  cacheControl : String
  xCache : String
  xImageId : Option String
  contentDisposition : Option String
  deriving DecidableEq, Repr

/-- Headers of the cache-hit branch of the avatar GET handler. -/
def hitHeaders (cached : ImgBytes) : Headers :=
  { contentType := "image/webp"
    contentLength := blen cached
    cacheControl := "public, max-age=86400"
    xCache := "HIT"
    xImageId := none
    contentDisposition := none }

/-- Headers of the cache-miss branch: `X-Image-Id` carries the user id,
and `Content-Disposition` is added exactly when `download === 'true'`. -/
def missHeaders (userId download : String) (processed : ImgBytes) : Headers :=
  { contentType := "image/webp"
    contentLength := blen processed
    cacheControl := "public, max-age=86400"
    xCache := "MISS"
    xImageId := some userId
    contentDisposition :=
      if download = "true"
      then some ("attachment; filename=\"avatar-" ++ userId ++ ".webp\"")
      else none }

/-- Result of one avatar GET request: a successful response (headers,
body, cache after the request) or a structured error (with the — always
unchanged — cache after the request). -/
inductive GetResult
  | ok (headers : Headers) (body : ImgBytes) (cache : Cache)
  | err (kind : ErrKind) (cache : Cache)
  deriving DecidableEq, Repr

/-- The part of a result an HTTP client observes (the cache state stripped). -/
inductive Obs
  | ok (headers : Headers) (body : ImgBytes)
  | err (kind : ErrKind)
  deriving DecidableEq, Repr

/-- Strip the cache state from a result. -/
def GetResult.observable : GetResult → Obs
  | .ok h b _ => .ok h b
  | .err k _ => .err k

/-- The response body, when the request succeeded. -/
def GetResult.bodyOf : GetResult → Option ImgBytes
  | .ok _ b _ => some b
  | .err _ _ => none

/-- The `X-Cache` marker, when the request succeeded. -/
def GetResult.xCacheOf : GetResult → Option String
  | .ok h _ _ => some h.xCache
  | .err _ _ => none

/-- The `GET /api/users/:userId/avatar` handler:
consult the cache under `` `${userId}-${size}` `` (HIT branch); on miss,
`getOne` the user (404 when absent), 404 when `user.avatar` is empty,
fetch the stored file (throw on non-ok), resize per
`sizes[size] || sizes.medium` guarded by `if (targetSize)`, store the
result under the key, and respond with the MISS headers. -/
def getAvatar (users : Users) (c : Cache) (userId size download : String) : GetResult :=
  match cacheLookup c (avatarCacheKey userId size) with
  | some cached => .ok (hitHeaders cached) cached c
  | none =>
    match usersLookup users userId with
    | none => .err .notFound c
    | some u =>
      match u.avatar with
      | none => .err .notFound c
      | some f =>
        match f with
        | .netErr => .err .upstreamFetchError c
        | .fetched original =>
          match applyTransform (targetSize size) original with
          | none => .err .transformError c
          | some processed =>
            .ok (missHeaders userId download processed) processed
              (cacheSet c (avatarCacheKey userId size) processed)

/-- The cache mutation of the avatar upload handler
(`POST /api/users/:userId/avatar`): `imageCache.delete(userId);`. -/
def uploadAvatarInvalidate (userId : String) (c : Cache) : Cache :=
  cacheDelete c userId

/-- The cache mutation of the avatar delete handler
(`DELETE /api/users/:userId/avatar`): prefix deletion by the user id. -/
def deleteAvatarInvalidate (userId : String) (c : Cache) : Cache :=
  clearCacheByPrefix userId c

/-- A demo 1000×1000 decodable original. -/
def demoOriginal : ImgBytes := .image 1000 1000 [7]

/-- A demo upstream: user `u1` has a stored original whose fetch succeeds. -/
def demoUsers : Users := [("u1", ⟨some (.fetched demoOriginal)⟩)]

/-- The 100×100 derivative the demo original produces for `small`. -/
def demoSmallB : ImgBytes := .image 100 100 [7]

/-! ### Helper lemmas about the key encoding and the cache operations -/

/-- The character list underlying an avatar key: the user id, the `-`
separator, then the size string. -/
theorem data_avatarCacheKey (userId size : String) :
    (avatarCacheKey userId size).data = userId.data ++ '-' :: size.data := by
  have hd : ("-" : String).data = ['-'] := rfl
  simp [avatarCacheKey, String.data_append, hd]

/-- The character list underlying an admin-image key. -/
theorem data_imageCacheKey (imageId size : String) :
    (imageCacheKey imageId size).data =
      ("image-" : String).data ++ (imageId.data ++ '-' :: size.data) := by
  have hd : ("-" : String).data = ['-'] := rfl
  simp [imageCacheKey, String.data_append, hd]

/-- An avatar derivative key is strictly longer than the bare user id,
hence never equal to it. -/
theorem avatarCacheKey_ne_userId (userId size : String) :
    avatarCacheKey userId size ≠ userId := by
  intro h
  have hlen := congrArg (fun s => s.data.length) h
  simp [data_avatarCacheKey] at hlen

/-- Deleting one exact key leaves the lookup of every other key unchanged. -/
theorem cacheLookup_cacheDelete_ne (c : Cache) (k k' : String) (h : k ≠ k') :
    cacheLookup (cacheDelete c k') k = cacheLookup c k := by
  induction c with
  | nil => rfl
  | cons kv rest ih =>
    obtain ⟨k₁, v⟩ := kv
    by_cases h1 : k₁ = k'
    · subst h1
      have h2 : ¬ k₁ = k := fun he => h (he ▸ rfl)
      simp [cacheDelete, cacheLookup, h2, ih]
    · by_cases h2 : k₁ = k
      · simp [cacheDelete, cacheLookup, h1, h2, h]
      · simp [cacheDelete, cacheLookup, h1, h2, ih]

/-- Prefix deletion leaves the lookup of every key that does not start
with the prefix unchanged. -/
theorem cacheLookup_clearCacheByPrefix (pfx k : String)
    (h : jsStartsWith k pfx = false) (c : Cache) :
    cacheLookup (clearCacheByPrefix pfx c) k = cacheLookup c k := by
  induction c with
  | nil => rfl
  | cons kv rest ih =>
    obtain ⟨k₁, v⟩ := kv
    by_cases h1 : jsStartsWith k₁ pfx = true
    · have hne : ¬ k₁ = k := by
        intro he
        subst he
        rw [h1] at h
        cases h
      simp [clearCacheByPrefix, h1, cacheLookup, hne, ih]
    · by_cases h2 : k₁ = k
      · simp [clearCacheByPrefix, h1, cacheLookup, h2, h]
      · simp [clearCacheByPrefix, h1, cacheLookup, h2, ih]

/-- Cancellation for list concatenation around a marker element that
occurs in neither left part. -/
theorem append_cons_cancel {α : Type} {a : α} :
    ∀ {l1 l2 t1 t2 : List α}, a ∉ l1 → a ∉ l2 →
      l1 ++ a :: t1 = l2 ++ a :: t2 → l1 = l2 ∧ t1 = t2 := by
  intro l1
  induction l1 with
  | nil =>
    intro l2 t1 t2 _ h2 h
    cases l2 with
    | nil => simpa using h
    | cons b l2' =>
      simp only [List.nil_append, List.cons_append, List.cons.injEq] at h
      exact absurd (h.1 ▸ List.mem_cons_self b l2') h2
  | cons b l1' ih =>
    intro l2 t1 t2 h1 h2 h
    cases l2 with
    | nil =>
      simp only [List.nil_append, List.cons_append, List.cons.injEq] at h
      exact absurd (h.1 ▸ List.mem_cons_self b l1') h1
    | cons b2 l2' =>
      simp only [List.cons_append, List.cons.injEq] at h
      have h1' : a ∉ l1' := fun hm => h1 (List.mem_cons_of_mem _ hm)
      have h2' : a ∉ l2' := fun hm => h2 (List.mem_cons_of_mem _ hm)
      obtain ⟨he, ht⟩ := ih h1' h2' h.2
      exact ⟨by rw [h.1, he], ht⟩

/-! ### The claims -/

/-- C1: the claim says a successful avatar upload removes *all* cached
derivatives of the user.  The upload handler instead runs
`imageCache.delete(userId)`, and a derivative key `` `${userId}-${size}` ``
is strictly longer than the bare user id, so the delete never matches a
derivative entry: every cached variant of the user survives the upload
(first conjunct: lookups of all of the user's derivative keys are
unchanged), and in particular a concrete stale `u1-medium` entry is
still present afterwards (second conjunct). -/
theorem c1_code_bug_upload_keeps_derivatives :
    (∀ (userId size : String) (c : Cache),
      cacheLookup (uploadAvatarInvalidate userId c) (avatarCacheKey userId size) =
        cacheLookup c (avatarCacheKey userId size)) ∧
    uploadAvatarInvalidate "u1" [("u1-medium", ImgBytes.image 300 300 [7])] =
      [("u1-medium", ImgBytes.image 300 300 [7])] := by
  constructor
  · intro userId size c
    exact cacheLookup_cacheDelete_ne c _ userId (avatarCacheKey_ne_userId userId size)
  · decide

/-- C2 counterexample: resource `"12"` is a proper string prefix of
resource `"123"`, and `invalidate("12")` (the delete handler's
`key.startsWith` loop) removes the cached `123-small` entry of the
other resource. -/
theorem c2_counterexample_prefix_collision :
    deleteAvatarInvalidate "12" [(avatarCacheKey "123" "small", demoSmallB)] = [] ∧
    ("12" : String) ≠ "123" := by decide

/-- C2 amended: invalidation removes exactly the entries whose key has
the invalidated id as a raw string prefix; an entry of another resource
survives only when the invalidated id is not a string prefix of its
key. -/
theorem c2_amended_no_removal_without_prefix (r1 r2 v : String) (c : Cache)
    (h : jsStartsWith (avatarCacheKey r1 v) r2 = false) :
    cacheLookup (deleteAvatarInvalidate r2 c) (avatarCacheKey r1 v) =
      cacheLookup c (avatarCacheKey r1 v) :=
  cacheLookup_clearCacheByPrefix r2 (avatarCacheKey r1 v) h c

/-- Witness for C2: invalidating `"12"` leaves the entry of resource
`"456"` exactly in place. -/
theorem c2_witness :
    jsStartsWith (avatarCacheKey "456" "small") "12" = false ∧
    cacheLookup (deleteAvatarInvalidate "12" [(avatarCacheKey "456" "small", demoSmallB)])
        (avatarCacheKey "456" "small") =
      cacheLookup [(avatarCacheKey "456" "small", demoSmallB)] (avatarCacheKey "456" "small") :=
  ⟨by decide,
    c2_amended_no_removal_without_prefix "456" "12" "small"
      [(avatarCacheKey "456" "small", demoSmallB)] (by decide)⟩

/-- C3: `small`/`medium`/`large` do map to 100/300/600, but `original`
does not skip the resize: `sizes.original` is `null`, so
`sizes[size] || sizes.medium` yields 300 and the
`if (targetSize)` guard is taken — a request for `original` of a
1000×1000 stored image returns a 300×300 derivative, byte-identical to
the `medium` derivative, not the original-dimension bytes. -/
theorem c3_code_bug_original_is_resized :
    targetSize "small" = .num 100 ∧ targetSize "medium" = .num 300 ∧
    targetSize "large" = .num 600 ∧ targetSize "original" = .num 300 ∧
    GetResult.bodyOf (getAvatar demoUsers [] "u1" "original" "false") =
      some (.image 300 300 [7]) ∧
    GetResult.bodyOf (getAvatar demoUsers [] "u1" "original" "false") =
      GetResult.bodyOf (getAvatar demoUsers [] "u1" "medium" "false") := by decide

/-- C7 counterexample: the key encoding concatenates with `-` and a
resource id may itself contain `-`, so two distinct
`(resourceId, variant)` pairs collide: `("a-b", "c")` and
`("a", "b-c")` both map to `"a-b-c"`. -/
theorem c7_counterexample_key_collision :
    avatarCacheKey "a-b" "c" = avatarCacheKey "a" "b-c" ∧
    ¬(("a-b" : String) = "a" ∧ ("c" : String) = "b-c") := by decide

/-- C7 amended: `makeKey` is deterministic (it is a pure function), and
it is injective over resource ids that do not contain the separator
character `-`: if neither id contains `-`, equal keys force equal ids
and equal variants. -/
theorem c7_amended_injective_without_separator (r1 r2 v1 v2 : String)
    (h1 : '-' ∉ r1.data) (h2 : '-' ∉ r2.data)
    (h : avatarCacheKey r1 v1 = avatarCacheKey r2 v2) :
    r1 = r2 ∧ v1 = v2 := by
  have hd : r1.data ++ '-' :: v1.data = r2.data ++ '-' :: v2.data := by
    have hc := congrArg String.data h
    rw [data_avatarCacheKey, data_avatarCacheKey] at hc
    exact hc
  obtain ⟨hr, hv⟩ := append_cons_cancel h1 h2 hd
  exact ⟨String.ext hr, String.ext hv⟩

/-- Witness for C7: hyphen-free ids `"a"`, `"a"` with variant `"b"`. -/
theorem c7_witness : ("a" : String) = "a" ∧ ("b" : String) = "b" :=
  c7_amended_injective_without_separator "a" "a" "b" "b" (by decide) (by decide) rfl

/-- C4 counterexample: with the `medium` derivative of `u1` cached and
no `u1-zzz` entry, the unrecognized variant `zzz` is keyed under its
own raw string, so it reports MISS while `medium` reports HIT — the two
calls are not observably equivalent. -/
theorem c4_counterexample_distinct_key :
    GetResult.xCacheOf
        (getAvatar demoUsers [("u1-medium", ImgBytes.image 300 300 [7])] "u1" "zzz" "false") =
      some "MISS" ∧
    GetResult.xCacheOf
        (getAvatar demoUsers [("u1-medium", ImgBytes.image 300 300 [7])] "u1" "medium" "false") =
      some "HIT" := by decide

/-- C4 amended: an unrecognized variant is *transformed* exactly like
`medium` (same 300-target fallback), so whenever neither its own key
nor the `medium` key is cached, the client-observable response
(headers, body, HIT/MISS marker, or error) coincides with `medium`'s;
but the entry is stored under the raw variant string's own key, so the
cache state — and hence HIT/MISS against a pre-populated cache — treats
every variant string as distinct. -/
theorem c4_amended_observable_equal_on_cold_keys
    (users : Users) (c : Cache) (userId v download : String)
    (hs : v ≠ "small") (hm : v ≠ "medium") (hl : v ≠ "large") (ho : v ≠ "original")
    (h1 : cacheLookup c (avatarCacheKey userId v) = none)
    (h2 : cacheLookup c (avatarCacheKey userId "medium") = none) :
    GetResult.observable (getAvatar users c userId v download) =
      GetResult.observable (getAvatar users c userId "medium" download) := by
  have ht : targetSize v = targetSize "medium" := by
    simp [targetSize, sizesLookup, sizeTruthy, hs, hm, hl, ho]
  simp only [getAvatar, h1, h2, ht]
  cases husers : usersLookup users userId with
  | none => simp only [husers]
  | some u =>
    simp only [husers]
    cases hav : u.avatar with
    | none => simp only [hav]
    | some f =>
      simp only [hav]
      cases f with
      | netErr => rfl
      | fetched original =>
        cases htr : applyTransform (targetSize "medium") original with
        | none => simp only [htr]
        | some processed => simp only [htr, GetResult.observable]

/-- Witness for C4: on a cold cache, variant `"zzz"` and `medium` give
the same observable response for `u1`. -/
theorem c4_witness :
    GetResult.observable (getAvatar demoUsers [] "u1" "zzz" "false") =
      GetResult.observable (getAvatar demoUsers [] "u1" "medium" "false") :=
  c4_amended_observable_equal_on_cold_keys demoUsers [] "u1" "zzz" "false"
    (by decide) (by decide) (by decide) (by decide) (by decide) (by decide)

/-- C5: on a freshly created (empty) cache, a successful
`get(r, v)` reports MISS, and the immediately following identical call
reports HIT, returns byte-identical output and leaves the cache
unchanged.  The second call's result is quantified over *every*
upstream state `users'` — in particular one with no users at all — which
expresses that the HIT branch invokes neither the external fetch nor
the transform. -/
theorem c5_confirmed_miss_then_hit
    (users : Users) (userId size download : String)
    (h : Headers) (b : ImgBytes) (c1 : Cache)
    (hfirst : getAvatar users [] userId size download = .ok h b c1) :
    h.xCache = "MISS" ∧
    ∀ users' : Users,
      getAvatar users' c1 userId size download = .ok (hitHeaders b) b c1 := by
  simp only [getAvatar, cacheLookup] at hfirst
  cases husers : usersLookup users userId with
  | none =>
    simp only [husers] at hfirst
    injection hfirst
  | some u =>
    simp only [husers] at hfirst
    cases hav : u.avatar with
    | none =>
      simp only [hav] at hfirst
      injection hfirst
    | some f =>
      simp only [hav] at hfirst
      cases f with
      | netErr => injection hfirst
      | fetched original =>
        cases htr : applyTransform (targetSize size) original with
        | none =>
          simp only [htr] at hfirst
          injection hfirst
        | some processed =>
          simp only [htr] at hfirst
          injection hfirst with hh hb hc
          subst hh hb hc
          refine ⟨rfl, fun users' => ?_⟩
          simp [getAvatar, cacheSet, cacheLookup]

/-- Witness for C5: the HIT replay of `u1`'s `small` derivative
succeeds even against an empty upstream. -/
theorem c5_witness :
    getAvatar [] [("u1-small", demoSmallB)] "u1" "small" "false" =
      .ok (hitHeaders demoSmallB) demoSmallB [("u1-small", demoSmallB)] :=
  (c5_confirmed_miss_then_hit demoUsers "u1" "small" "false"
      (missHeaders "u1" "false" demoSmallB) demoSmallB
      [("u1-small", demoSmallB)] (by decide)).2 []

/-- C6: every failing `get` (missing user, missing original, failed
upstream fetch, failed transform) leaves the cache exactly as it was,
and the identical call repeated against the resulting state fails with
the same error again — a failed MISS never inserts an entry and never
turns into a spurious success. -/
theorem c6_confirmed_error_inserts_nothing
    (users : Users) (c : Cache) (userId size download : String)
    (k : ErrKind) (c' : Cache)
    (herr : getAvatar users c userId size download = .err k c') :
    c' = c ∧ getAvatar users c' userId size download = .err k c' := by
  cases hc : cacheLookup c (avatarCacheKey userId size) with
  | some cached =>
    simp only [getAvatar, hc] at herr
    injection herr
  | none =>
    simp only [getAvatar, hc] at herr
    cases husers : usersLookup users userId with
    | none =>
      simp only [husers] at herr
      injection herr with hk hcc
      subst hk hcc
      exact ⟨rfl, by simp only [getAvatar, hc, husers]⟩
    | some u =>
      simp only [husers] at herr
      cases hav : u.avatar with
      | none =>
        simp only [hav] at herr
        injection herr with hk hcc
        subst hk hcc
        exact ⟨rfl, by simp only [getAvatar, hc, husers, hav]⟩
      | some f =>
        simp only [hav] at herr
        cases f with
        | netErr =>
          injection herr with hk hcc
          subst hk hcc
          exact ⟨rfl, by simp only [getAvatar, hc, husers, hav]⟩
        | fetched original =>
          cases htr : applyTransform (targetSize size) original with
          | none =>
            simp only [htr] at herr
            injection herr with hk hcc
            subst hk hcc
            exact ⟨rfl, by simp only [getAvatar, hc, husers, hav, htr]⟩
          | some processed =>
            simp only [htr] at herr
            injection herr

/-- Witness for C6: against an empty upstream the call fails with
`notFound` and the (empty) cache is untouched. -/
theorem c6_witness :
    (([] : Cache) = ([] : Cache)) ∧
    getAvatar [] [] "u1" "small" "false" = .err .notFound [] :=
  c6_confirmed_error_inserts_nothing [] [] "u1" "small" "false" .notFound [] (by decide)

/-- C8 counterexample: a HIT response to a request with
`download=true` carries no `Content-Disposition` header — only the MISS
branch of the handler adds it — refuting the claim that every
successful get with the download disposition carries the header. -/
theorem c8_counterexample_hit_drops_disposition :
    getAvatar [] [("u1-small", demoSmallB)] "u1" "small" "true" =
      .ok (hitHeaders demoSmallB) demoSmallB [("u1-small", demoSmallB)] ∧
    (hitHeaders demoSmallB).contentDisposition = none := by decide

/-- C8 amended: every successful get carries
`Content-Type: image/webp`, `Content-Length` equal to the body's byte
length, `Cache-Control: public, max-age=86400`, and an `X-Cache` marker
that is HIT or MISS; the `Content-Disposition: attachment` header is
produced only on MISS responses with `download=true` — HIT responses
never carry it. -/
theorem c8_amended_headers (users : Users) (c : Cache)
    (userId size download : String) (h : Headers) (b : ImgBytes) (c' : Cache)
    (hok : getAvatar users c userId size download = .ok h b c') :
    h.contentType = "image/webp" ∧ h.contentLength = blen b ∧
    h.cacheControl = "public, max-age=86400" ∧
    (h.xCache = "HIT" ∨ h.xCache = "MISS") ∧
    (h.xCache = "HIT" → h.contentDisposition = none) ∧
    (h.xCache = "MISS" →
      h.contentDisposition =
        (if download = "true"
         then some ("attachment; filename=\"avatar-" ++ userId ++ ".webp\"")
         else none)) := by
  cases hc : cacheLookup c (avatarCacheKey userId size) with
  | some cached =>
    simp only [getAvatar, hc] at hok
    injection hok with hh hb hcc
    subst hh hb hcc
    exact ⟨rfl, rfl, rfl, Or.inl rfl, fun _ => rfl, fun hmiss => by simp [hitHeaders] at hmiss⟩
  | none =>
    simp only [getAvatar, hc] at hok
    cases husers : usersLookup users userId with
    | none =>
      simp only [husers] at hok
      injection hok
    | some u =>
      simp only [husers] at hok
      cases hav : u.avatar with
      | none =>
        simp only [hav] at hok
        injection hok
      | some f =>
        simp only [hav] at hok
        cases f with
        | netErr => injection hok
        | fetched original =>
          cases htr : applyTransform (targetSize size) original with
          | none =>
            simp only [htr] at hok
            injection hok
          | some processed =>
            simp only [htr] at hok
            injection hok with hh hb hcc
            subst hh hb hcc
            exact ⟨rfl, rfl, rfl, Or.inr rfl, fun hhit => by simp [missHeaders] at hhit,
              fun _ => rfl⟩

/-- Witness for C8: on a MISS with `download=true` the handler does
attach the derived-filename disposition header. -/
theorem c8_witness :
    (missHeaders "u1" "true" demoSmallB).contentDisposition =
      (if ("true" : String) = "true"
       then some ("attachment; filename=\"avatar-" ++ "u1" ++ ".webp\"")
       else none) :=
  (c8_amended_headers demoUsers [] "u1" "small" "true"
      (missHeaders "u1" "true" demoSmallB) demoSmallB [("u1-small", demoSmallB)]
      (by decide)).2.2.2.2.2 rfl

/-- C9 counterexample: a get with an empty resource id reaches the
upstream lookup like any other id, and — the upstream having no record
under the empty id — fails with `notFound`, which is not the distinct
`validationError` the claim requires. -/
theorem c9_counterexample_empty_id_not_validation :
    getAvatar demoUsers [] "" "medium" "false" = .err .notFound [] ∧
    ErrKind.notFound ≠ ErrKind.validationError := by decide

/-- C9 amended: the avatar GET handler performs no input validation on
the resource id; an empty id (uncached, with no upstream record) fails
with `notFound`, the same error kind as any unknown id.  (An
unrecognized variant is indeed not an error — see C4.) -/
theorem c9_amended_empty_id_is_notFound (users : Users) (c : Cache) (v download : String)
    (hu : usersLookup users "" = none)
    (hc : cacheLookup c (avatarCacheKey "" v) = none) :
    getAvatar users c "" v download = .err .notFound c := by
  simp only [getAvatar, hc, hu]

/-- Witness for C9: the demo upstream has no empty-id record. -/
theorem c9_witness : getAvatar demoUsers [] "" "large" "false" = .err .notFound [] :=
  c9_amended_empty_id_is_notFound demoUsers [] "large" "false" (by decide) (by decide)

/-- C10 counterexample: the two keyspaces overlap inside the one shared
map: user id `"image-x"` with variant `small` produces exactly the
generic-image key of image `"x"` at `small`, and deleting that user's
avatar wipes the image's cached entry. -/
theorem c10_counterexample_keyspace_overlap :
    avatarCacheKey "image-x" "small" = imageCacheKey "x" "small" ∧
    deleteAvatarInvalidate "image-x" [(imageCacheKey "x" "small", demoSmallB)] = [] := by decide

/-- C10 amended: the keyspaces are disjoint only away from the `image-`
namespace: when the user id is neither a prefix of the string `image-`
nor an extension of it, no avatar key of that user equals any
generic-image key, no image key starts with that user id, and the
user's avatar-delete invalidation leaves every generic-image entry
unchanged.  (User ids such as `"image"`, `"image-x"`, or `"im"` do
overlap, as the counterexample shows.) -/
theorem c10_amended_disjoint_away_from_image_namespace (u i v1 v2 : String)
    (h1 : u.data.isPrefixOf ("image-" : String).data = false)
    (h2 : ("image-" : String).data.isPrefixOf u.data = false) :
    avatarCacheKey u v1 ≠ imageCacheKey i v2 ∧
    jsStartsWith (imageCacheKey i v2) u = false ∧
    ∀ c : Cache,
      cacheLookup (deleteAvatarInvalidate u c) (imageCacheKey i v2) =
        cacheLookup c (imageCacheKey i v2) := by
  have hnp : ¬ u.data <+: (imageCacheKey i v2).data := by
    intro hp
    rw [data_imageCacheKey] at hp
    have himg : ("image-" : String).data <+:
        ("image-" : String).data ++ (i.data ++ '-' :: v2.data) :=
      List.prefix_append _ _
    rcases List.prefix_or_prefix_of_prefix hp himg with hcase | hcase
    · rw [← List.isPrefixOf_iff_prefix, h1] at hcase
      cases hcase
    · rw [← List.isPrefixOf_iff_prefix, h2] at hcase
      cases hcase
  have hsw : jsStartsWith (imageCacheKey i v2) u = false := by
    unfold jsStartsWith
    cases hb : u.data.isPrefixOf (imageCacheKey i v2).data with
    | false => rfl
    | true =>
      rw [List.isPrefixOf_iff_prefix] at hb
      exact absurd hb hnp
  refine ⟨?_, hsw, fun c => cacheLookup_clearCacheByPrefix u _ hsw c⟩
  intro he
  apply hnp
  rw [← he, data_avatarCacheKey]
  exact ⟨'-' :: v1.data, rfl⟩

/-- Witness for C10: user `u1` is outside the `image-` namespace, so
its avatar key differs from `img1`'s image key and its invalidation
leaves the image's cached entry in place. -/
theorem c10_witness :
    avatarCacheKey "u1" "small" ≠ imageCacheKey "img1" "small" ∧
    cacheLookup (deleteAvatarInvalidate "u1" [(imageCacheKey "img1" "small", demoSmallB)])
        (imageCacheKey "img1" "small") = some demoSmallB := by
  have T := c10_amended_disjoint_away_from_image_namespace "u1" "img1" "small" "small"
    (by decide) (by decide)
  refine ⟨T.1, ?_⟩
  rw [T.2.2 [(imageCacheKey "img1" "small", demoSmallB)]]
  decide

end AvatarSystem
